import Mathlib

/-!
Verification of the component_requests repository core
(`src/component_requests/db/collections.py` and `src/component_requests/db/mongo.py`):
the request schema with its field validation, and the repository lifecycle
operations (create / list-all / update-status / delete / initialize), shallowly
embedded as pure Lean functions over an explicit collection state.
-/

namespace ComponentRequests

/-- `Status` enum (`collections.py` lines 16-26). -/
inductive Status
  | NEW
  | IN_PROGRESS
  | NEEDS_FOOTPRINT
  | QC
  | COMPLETE
  | REJECTED
  | REMOVED
  | DELETE
deriving DecidableEq, Repr

/-- `RequestType` enum (`collections.py` lines 29-35). -/
inductive RequestType
  | COMPONENT_FULL
  | SYMBOL_ONLY
  | COMPONENT_FOOTPRINT
  | FOOTPRINT_ONLY
deriving DecidableEq, Repr

/-- `Librarian` enum (`collections.py` lines 38-45). -/
inductive Librarian
  | RAYMOND_GLOVER
  | RENE_BROWN
  | MARK_HOUCK
  | PAUL_SHAVER
  | MAX_LUDDEN
deriving DecidableEq, Repr

/-- `Solution` enum (`collections.py` lines 48-55). -/
inductive Solution
  | FOOTPRINT_EXPERT_BUILD
  | FOOTPRINT_EXPERT_DOWNLOAD
  | EXISTING
  | MANUFACTURER_SPECIFICATION
  | COPIED_FROM
deriving DecidableEq, Repr

/-- Separator class `[-_ ]` of the Concord ID regex. -/
def isSep (c : Char) : Bool := c == '-' || c == '_' || c == ' '

/-- One attempt of the regex `[a-zA-Z]{1,6}[-_ ]\d+[-_ ]\d+` at the start of
`cs`, matching a prefix (characters after the final digit run are
unconstrained).  Greedy runs are exact here because the three character
classes (letters, separators, digits) are pairwise disjoint. -/
def matchAt (cs : List Char) : Bool :=
  let l := cs.takeWhile (fun c => c.isAlpha)
  let r1 := cs.dropWhile (fun c => c.isAlpha)
  decide (1 ≤ l.length) && decide (l.length ≤ 6) &&
    match r1 with
    | [] => false
    | c1 :: r2 =>
      isSep c1 &&
        (let d1 := r2.takeWhile (fun c => c.isDigit)
         let r3 := r2.dropWhile (fun c => c.isDigit)
         (!d1.isEmpty) &&
           match r3 with
           | [] => false
           | c2 :: r4 =>
             isSep c2 && !(r4.takeWhile (fun c => c.isDigit)).isEmpty)

/-- Modelled from the spec pattern `^[A-Za-z]{1,6}[-_ ]\d+[-_ ]\d+$`:
the anchored variant, which must consume the whole string. -/
def anchoredMatch (cs : List Char) : Bool :=
  let l := cs.takeWhile (fun c => c.isAlpha)
  let r1 := cs.dropWhile (fun c => c.isAlpha)
  decide (1 ≤ l.length) && decide (l.length ≤ 6) &&
    match r1 with
    | [] => false
    | c1 :: r2 =>
      isSep c1 &&
        (let d1 := r2.takeWhile (fun c => c.isDigit)
         let r3 := r2.dropWhile (fun c => c.isDigit)
         (!d1.isEmpty) &&
           match r3 with
           | [] => false
           | c2 :: r4 =>
             isSep c2 &&
               (let d2 := r4.takeWhile (fun c => c.isDigit)
                let r5 := r4.dropWhile (fun c => c.isDigit)
                (!d2.isEmpty) && r5.isEmpty))

/-- Unanchored regex search, as pydantic's `pattern=` constraint performs it:
the pattern may match starting at any position of the string. -/
def searchMatch : List Char → Bool
  | [] => false
  | c :: cs => matchAt (c :: cs) || searchMatch cs

/-- Search semantics on a `String` (embeds the pydantic `pattern=` check on
`concord_id` / `concord_footprint_id`, `collections.py` lines 79-83, 97-101). -/
def searchStr (s : String) : Bool := searchMatch s.data

/-- Anchored match on a `String` (the spec's `^...$` pattern). -/
def anchoredStr (s : String) : Bool := anchoredMatch s.data

/-- Validation of one optional Concord-ID field: pydantic skips the pattern
check when the value is `None`. -/
def concordFieldOk : Option String → Bool
  | none => true
  | some s => searchStr s

/-- The `ComponentRequest` document (`collections.py` lines 59-104).
The store-assigned identifier is `id`; `request_date` is an abstract
timestamp.  Enum-typed and required-string fields are well-typed by
construction, so pydantic validation reduces to the two pattern checks. -/
structure ComponentRequest where
  id : Nat
  requester : String
  request_date : Nat
  status : Status
  request_type : RequestType
  librarian : Librarian
  project : String
  task : String
  concord_id : Option String
  concord_folder : String
  manufacturer : Option String
  part_number : Option String
  manufacturer_link : Option String
  solution : Solution
  concord_footprint_id : Option String
  footprint_name : Option String
deriving DecidableEq, Repr

/-- Pydantic model validation of a `ComponentRequest`. -/
def validDoc (r : ComponentRequest) : Bool :=
  concordFieldOk r.concord_id && concordFieldOk r.concord_footprint_id

/-- The document collection: the stored documents plus the next
store-assigned identifier. -/
structure DB where
  docs : List ComponentRequest
  nextId : Nat
deriving DecidableEq, Repr

/-- `ComponentRequest.get(request_id)`: first document with the identifier. -/
def findDoc (i : Nat) : List ComponentRequest → Option ComponentRequest
  | [] => none
  | d :: ds => if d.id == i then some d else findDoc i ds

/-- Persisting `request.save()`: every stored document with `r.id` is
replaced by `r`. -/
def replaceDoc (r : ComponentRequest) : List ComponentRequest → List ComponentRequest
  | [] => []
  | d :: ds => (if d.id == r.id then r else d) :: replaceDoc r ds

/-- `request.delete()`: every document with identifier `i` is removed. -/
def removeDoc (i : Nat) : List ComponentRequest → List ComponentRequest
  | [] => []
  | d :: ds => if d.id == i then removeDoc i ds else d :: removeDoc i ds

/-- Python exceptions the embedded operations can surface. -/
inductive PyExc
  | validationError
  | connectionFailure
  | connectionError
  | nameError
  | assertionError
deriving DecidableEq, Repr

/-- What an awaited storage round-trip (`save()` / `delete()`) does:
succeed, raise `ValidationError`, or raise `pymongo ConnectionFailure`. -/
inductive StorageOutcome
  | ok
  | validationError
  | connectionFailure
deriving DecidableEq, Repr

/-- The optional keyword arguments of `ComponentRequest.create_request`
(`collections.py` lines 122-138); every field defaults to `None`. -/
structure CreateArgs where
  requester : Option String := none
  status : Option Status := none
  request_type : Option RequestType := none
  librarian : Option Librarian := none
  project : Option String := none
  task : Option String := none
  concord_id : Option String := none
  concord_folder : Option String := none
  manufacturer : Option String := none
  part_number : Option String := none
  manufacturer_link : Option String := none
  solution : Option Solution := none
  concord_footprint_id : Option String := none
  footprint_name : Option String := none
deriving DecidableEq, Repr

/-- The fixed record built on the `test=True` branch of `create_request`
(`collections.py` lines 158-175); `i` and `now` are the store-assigned
identifier and the creation timestamp. -/
def testDoc (i now : Nat) : ComponentRequest :=
  { id := i
    requester := "Max Ludden"
    request_date := now
    status := Status.NEW
    request_type := RequestType.COMPONENT_FULL
    librarian := Librarian.MAX_LUDDEN
    project := "[INT] Internal"
    task := "Training"
    concord_id := some "INT-123-456"
    concord_folder := "Capacitor"
    manufacturer := some "Murata"
    part_number := some "GRM155R71H103KA01D"
    manufacturer_link :=
      some "https://www.murata.com/en-us/products/productdetail?partno=GRM155R71H103KA01D"
    solution := Solution.COPIED_FROM
    concord_footprint_id := some "INT-123-456"
    footprint_name := some "0805_h1.5_n" }

/-- The document `create_request` constructs (`collections.py` lines 158-199):
the fixed test record when `test` is set, otherwise the supplied fields with
the source's defaults for the `None` ones. -/
def builtDoc (a : CreateArgs) (test : Bool) (i now : Nat) : ComponentRequest :=
  if test then testDoc i now
  else
    { id := i
      requester := a.requester.getD ""
      request_date := now
      status := a.status.getD Status.NEW
      request_type := a.request_type.getD RequestType.COMPONENT_FULL
      librarian := a.librarian.getD Librarian.RAYMOND_GLOVER
      project := a.project.getD ""
      task := a.task.getD ""
      concord_id := a.concord_id
      concord_folder := a.concord_folder.getD ""
      manufacturer := a.manufacturer
      part_number := a.part_number
      manufacturer_link := a.manufacturer_link
      solution := a.solution.getD Solution.EXISTING
      concord_footprint_id := a.concord_footprint_id
      footprint_name := a.footprint_name }

/-- `ComponentRequest.create_request` (`collections.py` lines 121-200):
constructing the pydantic model validates it (raising `ValidationError` and
persisting nothing on failure); on success `insert()` appends the document
with the store-assigned identifier. -/
def create_request (a : CreateArgs) (test : Bool) (now : Nat) (db : DB) :
    Except PyExc DB :=
  if validDoc (builtDoc a test db.nextId now) then
    Except.ok { docs := db.docs ++ [builtDoc a test db.nextId now], nextId := db.nextId + 1 }
  else Except.error PyExc.validationError

/-- `ComponentRequest.get_all_requests` (`collections.py` lines 202-209). -/
def get_all_requests (db : DB) : List ComponentRequest := db.docs

/-- `ComponentRequest.update_request` (`collections.py` lines 211-229).
`getFails` says whether the unguarded `ComponentRequest.get` round-trip
raises `ConnectionFailure`; `save` is the outcome of `request.save()`.
The `try` around `save()` catches only `ValidationError` (returning `False`);
the success path falls through to the trailing `return False`. -/
def update_request (getFails : Bool) (save : StorageOutcome) (request_id : Nat)
    (status : Status) (db : DB) : Except PyExc (Bool × DB) :=
  if getFails then Except.error PyExc.connectionFailure
  else
    match findDoc request_id db.docs with
    | some r =>
      match save with
      | StorageOutcome.ok =>
        Except.ok (false, { db with docs := replaceDoc { r with status := status } db.docs })
      | StorageOutcome.validationError => Except.ok (false, db)
      | StorageOutcome.connectionFailure => Except.error PyExc.connectionFailure
    | none => Except.ok (false, db)

/-- `ComponentRequest.delete_request` (`collections.py` lines 231-246).
`getFails` as in `update_request`; `del2` is the outcome of
`request.delete()`, whose `try` catches both `ValidationError` and
`ConnectionFailure` and returns `False` in every branch, including the
successful removal. -/
def delete_request (getFails : Bool) (del2 : StorageOutcome) (request_id : Nat)
    (db : DB) : Except PyExc (Bool × DB) :=
  if getFails then Except.error PyExc.connectionFailure
  else
    match findDoc request_id db.docs with
    | some _ =>
      match del2 with
      | StorageOutcome.ok =>
        Except.ok (false, { db with docs := removeDoc request_id db.docs })
      | StorageOutcome.validationError => Except.ok (false, db)
      | StorageOutcome.connectionFailure => Except.ok (false, db)
    | none => Except.ok (false, db)

/-- Default of `getenv("MONGO_URI", ...)` in `mongo.py` line 22. -/
def defaultMongoUri : String := "op://Dev/Mongo-AppliedLogix/uri"

/-- `get_mongo_uri` (`mongo.py` lines 20-24): `getenv` with a non-empty
fallback default, then `assert uri` (failing only on a falsy, i.e. empty,
string). -/
def get_mongo_uri (env : String → Option String) : Except PyExc String :=
  let uri := (env "MONGO_URI").getD defaultMongoUri
  if uri = "" then Except.error PyExc.assertionError else Except.ok uri

/-- `get_client` (`mongo.py` lines 27-46): `AsyncIOMotorClient(get_mongo_uri())`
runs inside a `try` whose `except Exception` re-raises as the builtin
`ConnectionError` — this catches both the `assert` in `get_mongo_uri` and the
driver's eager connection-string validation (pymongo raises `InvalidURI` for
the `"op://..."` fallback, whose host part contains `/` without a `mongodb`
scheme).  Which strings the driver accepts is external-library behavior,
abstracted as the predicate `uriOk`. -/
def get_client (env : String → Option String) (uriOk : String → Bool) :
    Except PyExc String :=
  match get_mongo_uri env with
  | Except.error _ => Except.error PyExc.connectionError
  | Except.ok uri =>
    if uriOk uri then Except.ok uri else Except.error PyExc.connectionError

/-- A database handle: connection string plus database name. -/
structure DBHandle where
  uri : String
  dbName : String
deriving DecidableEq, Repr

/-- `get_requests_db` (`mongo.py` lines 49-58): the `get_client()` call sits
outside the `try`, so its `ConnectionError` propagates unchanged;
`client.get_database(...)` sits inside it, and any driver error — pymongo
raises `InvalidName` for the fallback database name, which contains `/` — is
re-raised as `ConnectionError`.  Which names the driver accepts is
external-library behavior, abstracted as the predicate `dbNameOk`. -/
def get_requests_db (env : String → Option String) (uriOk dbNameOk : String → Bool) :
    Except PyExc DBHandle :=
  match get_client env uriOk with
  | Except.error e => Except.error e
  | Except.ok uri =>
    if dbNameOk ((env "MONGO_DB").getD "op://Dev/Mongo-AppliedLogix/db") then
      Except.ok { uri := uri, dbName := (env "MONGO_DB").getD "op://Dev/Mongo-AppliedLogix/db" }
    else Except.error PyExc.connectionError

/-- The names bound in the module scope of `mongo.py` (imports and
top-level definitions). -/
def mongoModuleGlobals : List String :=
  ["annotations", "getenv", "init_beanie", "load_dotenv", "AsyncIOMotorClient",
   "AsyncIOMotorDatabase", "get_console", "get_logger", "console", "logger",
   "VERBOSE", "get_mongo_uri", "get_client", "get_requests_db", "init_db"]

/-- Resolution of a global name in `mongo.py`: an unbound name raises
`NameError` when evaluated. -/
def mongoResolve (n : String) : Except PyExc Unit :=
  if n ∈ mongoModuleGlobals then Except.ok () else Except.error PyExc.nameError

/-- `init_db` in `mongo.py` (lines 61-64): two identical
`init_beanie(database=get_requests_db(), document_models=[Request])` calls;
each evaluates `get_requests_db()` first, then the name `Request`.  The
driver-acceptance predicates are threaded through. -/
def mongo_init_db (env : String → Option String) (uriOk dbNameOk : String → Bool) :
    Except PyExc Unit :=
  match get_requests_db env uriOk dbNameOk with
  | Except.error e => Except.error e
  | Except.ok _ =>
    match mongoResolve "Request" with
    | Except.error e => Except.error e
    | Except.ok _ =>
      match get_requests_db env uriOk dbNameOk with
      | Except.error e => Except.error e
      | Except.ok _ =>
        match mongoResolve "Request" with
        | Except.error e => Except.error e
        | Except.ok _ => Except.ok ()

/-- A concrete stored document used as test data. -/
def sampleDoc : ComponentRequest :=
  { id := 0
    requester := "Max Ludden"
    request_date := 0
    status := Status.NEW
    request_type := RequestType.COMPONENT_FULL
    librarian := Librarian.MAX_LUDDEN
    project := "[INT] Internal"
    task := "Training"
    concord_id := some "INT-123-456"
    concord_folder := "Capacitor"
    manufacturer := some "Murata"
    part_number := some "GRM155R71H103KA01D"
    manufacturer_link := some "https://www.murata.com/en-us/products/productdetail?partno=GRM155R71H103KA01D"
    solution := Solution.COPIED_FROM
    concord_footprint_id := some "INT-123-456"
    footprint_name := some "0805_h1.5_n" }

/-- A concrete collection holding exactly `sampleDoc`. -/
def db1 : DB := { docs := [sampleDoc], nextId := 1 }

/-- The `CreateArgs` of the C3 counterexample: only `concord_id` supplied. -/
def argsX : CreateArgs := { concord_id := some "INT-123-456X" }

/-- `sampleDoc` with both Concord-ID fields set to a valid ID surrounded by
extra characters (fails the anchored pattern, passes the unanchored search). -/
def doc9 : ComponentRequest :=
  { sampleDoc with concord_id := some "xINT-123-456x", concord_footprint_id := some "xINT-123-456x" }

example : searchStr "INT-123-456" = true := by decide
example : anchoredStr "INT-123-456" = true := by decide
example : searchStr "INT-123-456X" = true := by decide
example : anchoredStr "INT-123-456X" = false := by decide
example : searchStr "xINT-123-456x" = true := by decide
example : anchoredStr "xINT-123-456x" = false := by decide
example : searchStr "INT123456" = false := by decide
example : searchStr "ABCDEFGH-1-2" = true := by decide
example : anchoredStr "ABCDEFGH-1-2" = false := by decide

/-- After `replaceDoc r2`, looking up the identifier that previously yielded
`r` (with `r2.id = r.id`) yields `r2`. -/
theorem findDoc_replaceDoc (i : Nat) (r r2 : ComponentRequest) (hid : r2.id = r.id) :
    ∀ docs : List ComponentRequest, findDoc i docs = some r →
      findDoc i (replaceDoc r2 docs) = some r2 := by
  intro docs
  induction docs with
  | nil => intro h; simp [findDoc] at h
  | cons d ds ih =>
    intro h
    by_cases hd : (d.id == i) = true
    · have hdr : d = r := by simpa [findDoc, hd] using h
      subst hdr
      have h1 : (d.id == r2.id) = true := by simp [hid]
      simp [replaceDoc, findDoc, h1, hid, hd]
    · have htail : findDoc i ds = some r := by simpa [findDoc, hd] using h
      have hri : (r.id == i) = true := by
        clear h ih
        induction ds with
        | nil => simp [findDoc] at htail
        | cons e es ihe =>
          by_cases he : (e.id == i) = true
          · have : e = r := by simpa [findDoc, he] using htail
            rw [← this]; exact he
          · exact ihe (by simpa [findDoc, he] using htail)
      have h2 : (d.id == r2.id) = false := by
        rw [hid]
        have hi : r.id = i := eq_of_beq hri
        rw [hi]
        exact Bool.of_not_eq_true hd
      simp [replaceDoc, findDoc, h2, hd]
      exact ih htail

/-- C1 — code-bug evaluation: on the collection `db1` (one document,
identifier 0), `update_request` with a successful save persists the new
status — `list_all` then shows `Complete` — yet returns `False`, contradicting
the claim and the function's own docstring, which promise `True` on success. -/
theorem update_persists_but_returns_false :
    update_request false StorageOutcome.ok 0 Status.COMPLETE db1 =
      Except.ok (false, { docs := [{ sampleDoc with status := Status.COMPLETE }], nextId := 1 })
    ∧ (get_all_requests { docs := [{ sampleDoc with status := Status.COMPLETE }], nextId := 1 }).map
        (fun d => d.status) = [Status.COMPLETE] :=
  ⟨rfl, rfl⟩

/-- C2 — code-bug evaluation: deleting the existing identifier 0 from `db1`
removes the document (`list_all` becomes empty) yet returns `False`; on the
non-existent identifier 5 it returns `False` with the collection unchanged,
as the claim says. -/
theorem delete_removes_but_returns_false :
    delete_request false StorageOutcome.ok 0 db1 =
      Except.ok (false, { docs := [], nextId := 1 })
    ∧ get_all_requests { docs := [], nextId := 1 } = []
    ∧ delete_request false StorageOutcome.ok 5 db1 = Except.ok (false, db1) :=
  ⟨rfl, rfl, rfl⟩

/-- C3 counterexample: `"INT-123-456X"` does not match the anchored pattern
`^[A-Za-z]{1,6}[-_ ]\d+[-_ ]\d+$`, yet `create` called with it as `concord_id`
succeeds and persists a document carrying exactly that value, because the
field's pattern check is an unanchored search. -/
theorem create_accepts_unanchored_concord_id :
    anchoredStr "INT-123-456X" = false
    ∧ create_request argsX false 7 { docs := [], nextId := 0 } =
        Except.ok { docs := [builtDoc argsX false 0 7], nextId := 1 }
    ∧ (builtDoc argsX false 0 7).concord_id = some "INT-123-456X" :=
  ⟨rfl, rfl, rfl⟩

/-- C3 amended: `create` fails with `ValidationError` (persisting nothing)
whenever a supplied `concord_id` or `concord_footprint_id` contains no
substring matching `[a-zA-Z]{1,6}[-_ ]\d+[-_ ]\d+` — the unanchored search
the field validation actually performs. -/
theorem create_rejects_unsearchable_ids (s : String) (a : CreateArgs)
    (now : Nat) (db : DB) (hs : searchStr s = false)
    (hfield : a.concord_id = some s ∨ a.concord_footprint_id = some s) :
    create_request a false now db = Except.error PyExc.validationError := by
  rcases hfield with h | h <;>
    simp [create_request, builtDoc, validDoc, concordFieldOk, h, hs]

/-- Witness for the amended C3: `"INT123456"` (no separators) contains no
match, and `create` rejects it. -/
theorem create_rejects_unsearchable_ids_witness :
    searchStr "INT123456" = false
    ∧ create_request { concord_id := some "INT123456" } false 0
        { docs := [], nextId := 0 } = Except.error PyExc.validationError :=
  ⟨rfl, create_rejects_unsearchable_ids "INT123456"
    { concord_id := some "INT123456" } 0 { docs := [], nextId := 0 } rfl (Or.inl rfl)⟩

/-- C5: with the test flag set, `create` persists the fixed canonical record
(up to the store-assigned identifier and timestamp) whatever the other
arguments are. -/
theorem create_test_ignores_args (a : CreateArgs) (now : Nat) (db : DB) :
    create_request a true now db =
      Except.ok { docs := db.docs ++ [testDoc db.nextId now], nextId := db.nextId + 1 } :=
  rfl

/-- C9: the Concord-ID validation is a substring search, not a full-string
match: `"xINT-123-456x"` — a valid ID surrounded by extra characters — fails
the anchored pattern yet is accepted by the optional-field validation, and a
document carrying it in both `concord_id` and `concord_footprint_id` passes
model validation. -/
theorem concord_pattern_is_substring_search :
    anchoredStr "xINT-123-456x" = false
    ∧ concordFieldOk (some "xINT-123-456x") = true
    ∧ validDoc doc9 = true :=
  ⟨rfl, rfl, rfl⟩

/-- C4: without the test flag, each argument left unspecified (`None`) yields
its documented default in the constructed document — empty string for the
required text fields, `Status.NEW`, `RequestType.COMPONENT_FULL`, the default
librarian `RAYMOND_GLOVER`, `Solution.EXISTING`, and absence for the six
optional fields — and `create` persists exactly that document whenever it
validates. -/
theorem create_fills_documented_defaults (a : CreateArgs) (i now : Nat) :
    ((a.requester = none → (builtDoc a false i now).requester = "")
      ∧ (a.project = none → (builtDoc a false i now).project = "")
      ∧ (a.task = none → (builtDoc a false i now).task = "")
      ∧ (a.concord_folder = none → (builtDoc a false i now).concord_folder = "")
      ∧ (a.status = none → (builtDoc a false i now).status = Status.NEW)
      ∧ (a.request_type = none →
          (builtDoc a false i now).request_type = RequestType.COMPONENT_FULL)
      ∧ (a.librarian = none →
          (builtDoc a false i now).librarian = Librarian.RAYMOND_GLOVER)
      ∧ (a.solution = none → (builtDoc a false i now).solution = Solution.EXISTING)
      ∧ (a.concord_id = none → (builtDoc a false i now).concord_id = none)
      ∧ (a.manufacturer = none → (builtDoc a false i now).manufacturer = none)
      ∧ (a.part_number = none → (builtDoc a false i now).part_number = none)
      ∧ (a.manufacturer_link = none → (builtDoc a false i now).manufacturer_link = none)
      ∧ (a.concord_footprint_id = none →
          (builtDoc a false i now).concord_footprint_id = none)
      ∧ (a.footprint_name = none → (builtDoc a false i now).footprint_name = none))
    ∧ ∀ db : DB, validDoc (builtDoc a false db.nextId now) = true →
        create_request a false now db =
          Except.ok { docs := db.docs ++ [builtDoc a false db.nextId now],
                      nextId := db.nextId + 1 } := by
  constructor
  · exact ⟨fun h => by simp [builtDoc, h], fun h => by simp [builtDoc, h],
      fun h => by simp [builtDoc, h], fun h => by simp [builtDoc, h],
      fun h => by simp [builtDoc, h], fun h => by simp [builtDoc, h],
      fun h => by simp [builtDoc, h], fun h => by simp [builtDoc, h],
      fun h => by simp [builtDoc, h], fun h => by simp [builtDoc, h],
      fun h => by simp [builtDoc, h], fun h => by simp [builtDoc, h],
      fun h => by simp [builtDoc, h], fun h => by simp [builtDoc, h]⟩
  · intro db hv
    simp [create_request, hv]

/-- Witness for C4 at the all-defaults call on an empty collection. -/
theorem create_fills_documented_defaults_witness :
    (builtDoc {} false 0 0).requester = ""
    ∧ (builtDoc {} false 0 0).status = Status.NEW
    ∧ (builtDoc {} false 0 0).librarian = Librarian.RAYMOND_GLOVER
    ∧ create_request {} false 0 { docs := [], nextId := 0 } =
        Except.ok { docs := [builtDoc {} false 0 0], nextId := 1 } :=
  ⟨(create_fills_documented_defaults {} 0 0).1.1 rfl,
   (create_fills_documented_defaults {} 0 0).1.2.2.2.2.1 rfl,
   (create_fills_documented_defaults {} 0 0).1.2.2.2.2.2.2.1 rfl,
   (create_fills_documented_defaults {} 0 0).2 { docs := [], nextId := 0 } rfl⟩

/-- C6: on an existing identifier, `update_request` with a successful save
changes `status` alone — the stored document afterwards carries the new
status and agrees with the old one on every other field, the identifier
included. -/
theorem update_changes_only_status (i : Nat) (s : Status) (db : DB)
    (r : ComponentRequest) (h : findDoc i db.docs = some r) :
    ∃ d2 : DB, ∃ r2 : ComponentRequest,
      update_request false StorageOutcome.ok i s db = Except.ok (false, d2)
      ∧ findDoc i (get_all_requests d2) = some r2
      ∧ r2.status = s
      ∧ r2.id = r.id
      ∧ r2.requester = r.requester
      ∧ r2.request_date = r.request_date
      ∧ r2.request_type = r.request_type
      ∧ r2.librarian = r.librarian
      ∧ r2.project = r.project
      ∧ r2.task = r.task
      ∧ r2.concord_id = r.concord_id
      ∧ r2.concord_folder = r.concord_folder
      ∧ r2.manufacturer = r.manufacturer
      ∧ r2.part_number = r.part_number
      ∧ r2.manufacturer_link = r.manufacturer_link
      ∧ r2.solution = r.solution
      ∧ r2.concord_footprint_id = r.concord_footprint_id
      ∧ r2.footprint_name = r.footprint_name := by
  refine ⟨{ db with docs := replaceDoc { r with status := s } db.docs },
    { r with status := s }, ?_, ?_, rfl, rfl, rfl, rfl, rfl, rfl, rfl, rfl,
    rfl, rfl, rfl, rfl, rfl, rfl, rfl, rfl⟩
  · simp [update_request, h]
  · exact findDoc_replaceDoc i r { r with status := s } rfl db.docs h

/-- Witness for C6 on `db1` with the new status `QC`. -/
theorem update_changes_only_status_witness :
    ∃ d2 : DB, ∃ r2 : ComponentRequest,
      update_request false StorageOutcome.ok 0 Status.QC db1 = Except.ok (false, d2)
      ∧ findDoc 0 (get_all_requests d2) = some r2
      ∧ r2.status = Status.QC
      ∧ r2.id = sampleDoc.id
      ∧ r2.requester = sampleDoc.requester
      ∧ r2.request_date = sampleDoc.request_date
      ∧ r2.request_type = sampleDoc.request_type
      ∧ r2.librarian = sampleDoc.librarian
      ∧ r2.project = sampleDoc.project
      ∧ r2.task = sampleDoc.task
      ∧ r2.concord_id = sampleDoc.concord_id
      ∧ r2.concord_folder = sampleDoc.concord_folder
      ∧ r2.manufacturer = sampleDoc.manufacturer
      ∧ r2.part_number = sampleDoc.part_number
      ∧ r2.manufacturer_link = sampleDoc.manufacturer_link
      ∧ r2.solution = sampleDoc.solution
      ∧ r2.concord_footprint_id = sampleDoc.concord_footprint_id
      ∧ r2.footprint_name = sampleDoc.footprint_name :=
  update_changes_only_status 0 Status.QC db1 sampleDoc rfl

/-- C7 counterexample: a `ConnectionFailure` raised by `save()` during
`update_request` on an existing identifier is not caught — the operation
re-raises it to the caller instead of returning a boolean. -/
theorem update_save_connectivity_propagates :
    update_request false StorageOutcome.connectionFailure 0 Status.COMPLETE db1 =
      Except.error PyExc.connectionFailure :=
  rfl

/-- C7 amended: only the removal step of `delete_request` catches
`ConnectionFailure` (the whole operation then returns a boolean); a
connectivity failure at the unguarded `get` lookup propagates from both
operations, and one at `save()` propagates from `update_request`. -/
theorem connectivity_handling_asymmetry (o : StorageOutcome) (i : Nat)
    (s : Status) (db : DB) :
    (∃ p : Bool × DB, delete_request false o i db = Except.ok p)
    ∧ delete_request true o i db = Except.error PyExc.connectionFailure
    ∧ update_request true o i s db = Except.error PyExc.connectionFailure
    ∧ ((findDoc i db.docs).isSome = true →
        update_request false StorageOutcome.connectionFailure i s db =
          Except.error PyExc.connectionFailure) := by
  refine ⟨?_, rfl, rfl, ?_⟩
  · rcases hf : findDoc i db.docs with _ | r
    · exact ⟨(false, db), by simp [delete_request, hf]⟩
    · cases o
      · exact ⟨(false, { db with docs := removeDoc i db.docs }),
          by simp [delete_request, hf]⟩
      · exact ⟨(false, db), by simp [delete_request, hf]⟩
      · exact ⟨(false, db), by simp [delete_request, hf]⟩
  · intro hsome
    rcases hf : findDoc i db.docs with _ | r
    · rw [hf] at hsome; simp at hsome
    · simp [update_request, hf]

/-- Witness for the amended C7 on `db1`, whose identifier 0 exists. -/
theorem connectivity_handling_asymmetry_witness :
    update_request false StorageOutcome.connectionFailure 0 Status.NEW db1 =
      Except.error PyExc.connectionFailure :=
  (connectivity_handling_asymmetry StorageOutcome.connectionFailure 0
    Status.NEW db1).2.2.2 rfl

/-- C8 counterexample: with `MONGO_URI` absent from the environment,
`get_mongo_uri` does not fail — it proceeds with the substitute default
`"op://Dev/Mongo-AppliedLogix/uri"`. -/
theorem missing_uri_yields_default :
    get_mongo_uri (fun _ => none) = Except.ok defaultMongoUri
    ∧ defaultMongoUri ≠ "" :=
  ⟨rfl, by simp [defaultMongoUri]⟩

/-- C8 amended: absence of `MONGO_URI` is not fatal — `get_mongo_uri` falls
back to the hard-coded default; its assertion fails exactly when `MONGO_URI`
is set to the empty string. -/
theorem get_mongo_uri_fallback_behavior (env : String → Option String) :
    (env "MONGO_URI" = none → get_mongo_uri env = Except.ok defaultMongoUri)
    ∧ (get_mongo_uri env = Except.error PyExc.assertionError ↔
        env "MONGO_URI" = some "") := by
  constructor
  · intro h
    simp [get_mongo_uri, h, defaultMongoUri]
  · constructor
    · intro h
      rcases he : env "MONGO_URI" with _ | s
      · rw [get_mongo_uri, he] at h
        simp [defaultMongoUri] at h
      · by_cases hs : s = ""
        · rw [hs]
        · rw [get_mongo_uri, he] at h
          simp [hs] at h
    · intro h
      simp [get_mongo_uri, h]

/-- Witness for the amended C8: the empty-string case trips the assertion. -/
theorem get_mongo_uri_fallback_behavior_witness :
    get_mongo_uri (fun _ => some "") = Except.error PyExc.assertionError :=
  (get_mongo_uri_fallback_behavior (fun _ => some "")).2.mpr rfl

/-- C10 counterexample: with `MONGO_URI` set to the empty string the assert
inside `get_client`'s `try` fires first, so `mongo.init_db` raises
`ConnectionError` — not `NameError` — even if the driver accepted every
connection string and database name. -/
theorem empty_uri_init_db_not_nameError :
    mongo_init_db (fun _ => some "") (fun _ => true) (fun _ => true) =
      Except.error PyExc.connectionError
    ∧ mongo_init_db (fun _ => some "") (fun _ => true) (fun _ => true) ≠
      Except.error PyExc.nameError := by
  refine ⟨rfl, ?_⟩
  intro h
  have h2 : (Except.error PyExc.connectionError : Except PyExc Unit) =
      Except.error PyExc.nameError := h
  exact PyExc.noConfusion (Except.error.inj h2)

/-- C10 amended: `mongo.init_db` never succeeds, for every environment and
whatever connection strings and database names the driver accepts.  Whenever
the database handle is actually acquired, evaluating the undefined name
`Request` raises `NameError`; on every other path a `ConnectionError`
pre-empts it — in particular, when `MONGO_URI` is absent and the driver
rejects the `"op://..."` fallback URI (pymongo raises `InvalidURI` for it,
re-raised as `ConnectionError` by `get_client`). -/
theorem init_db_never_succeeds (env : String → Option String)
    (uriOk dbNameOk : String → Bool) :
    (∀ u : Unit, mongo_init_db env uriOk dbNameOk ≠ Except.ok u)
    ∧ (∀ hdl : DBHandle, get_requests_db env uriOk dbNameOk = Except.ok hdl →
        mongo_init_db env uriOk dbNameOk = Except.error PyExc.nameError)
    ∧ (uriOk defaultMongoUri = false → env "MONGO_URI" = none →
        mongo_init_db env uriOk dbNameOk = Except.error PyExc.connectionError) := by
  have hres : mongoResolve "Request" = Except.error PyExc.nameError := by
    simp [mongoResolve, mongoModuleGlobals]
  refine ⟨?_, ?_, ?_⟩
  · intro u hcontra
    rcases hg : get_requests_db env uriOk dbNameOk with e | hdl
    · simp [mongo_init_db, hg] at hcontra
    · simp [mongo_init_db, hg, hres] at hcontra
  · intro hdl hg
    simp [mongo_init_db, hg, hres]
  · intro hu he
    have h1 : get_mongo_uri env = Except.ok defaultMongoUri := by
      simp [get_mongo_uri, he, defaultMongoUri]
    have hgc : get_client env uriOk = Except.error PyExc.connectionError := by
      simp [get_client, h1, hu]
    simp [mongo_init_db, get_requests_db, hgc]

/-- Witness for the amended C10: with `MONGO_URI` absent, a driver accepting
the fallback values acquires the handle and `init_db` hits `NameError`, while
a driver rejecting the fallback URI (as pymongo does) yields `ConnectionError`. -/
theorem init_db_never_succeeds_witness :
    mongo_init_db (fun _ => none) (fun _ => true) (fun _ => true) =
      Except.error PyExc.nameError
    ∧ mongo_init_db (fun _ => none) (fun _ => false) (fun _ => false) =
      Except.error PyExc.connectionError :=
  ⟨(init_db_never_succeeds (fun _ => none) (fun _ => true) (fun _ => true)).2.1
      { uri := defaultMongoUri, dbName := "op://Dev/Mongo-AppliedLogix/db" } rfl,
   (init_db_never_succeeds (fun _ => none) (fun _ => false) (fun _ => false)).2.2 rfl rfl⟩

end ComponentRequests
